import Mathlib

/-!
Verification of the viewport/virtualization and interaction engine of the
iced_data_navigator hex-viewer widget, as a shallow embedding in Lean 4.

Conventions of the embedding:
* Rust `i64` values are modelled as `Int` and `u64`/`usize` values as `Nat`.
  `as`-casts between them are modelled by the explicit wrapping conversions
  `u64ofI64` and `i64ofU64` (mod 2^64), exactly as Rust `as` casts wrap.
* Rust `f32`/`f64` computations are modelled over `ℚ` (floor/ceil via
  `Int.floor`/`Int.ceil`); division by zero yields 0 in `ℚ`, matching the use
  sites where the divisor is positive.
* `Vec<u8>` byte buffers are `List Nat`; a ranged slice write is `writeRange`.
* A Rust `panic!` is modelled by returning `Except.error`.
-/

namespace HexNav

/-! ### Axis viewport / scroll model (src/core/scrollbar.rs, `Viewport`) -/

/-- One axis of virtual scrolling, from `scrollbar.rs`:
`{offset: i64, size: i64, step_size: f32, content_viewport_size: f32}`. -/
structure ScrollViewport where
  offset : Int
  size : Int
  step_size : ℚ
  content_viewport_size : ℚ
deriving DecidableEq

/-- `Viewport::viewport_steps_floor`: `(content_viewport_size / step_size).floor() as i64`. -/
def viewport_steps_floor (v : ScrollViewport) : Int :=
  Int.floor (v.content_viewport_size / v.step_size)

/-- `Viewport::viewport_steps_ceil`: `(content_viewport_size / step_size).ceil() as i64`. -/
def viewport_steps_ceil (v : ScrollViewport) : Int :=
  Int.ceil (v.content_viewport_size / v.step_size)

/-- `Viewport::virtual_max_offset`: `(size - viewport_steps_floor()).max(0)`. -/
def virtual_max_offset (v : ScrollViewport) : Int :=
  max (v.size - viewport_steps_floor v) 0

/-- `Viewport::fitted_scroll_offset`: `offset.min(virtual_max_offset()).max(0)`. -/
def fitted_scroll_offset (v : ScrollViewport) : Int :=
  max (min v.offset (virtual_max_offset v)) 0

/-- `Viewport::add_steps`: `self.offset += steps; self` (no clamping in the body,
despite its doc comment "Adds the number of steps, clamped to valid values"). -/
def add_steps (v : ScrollViewport) (steps : Int) : ScrollViewport :=
  { v with offset := v.offset + steps }

/-- `Viewport::subtract_steps`: `self.offset -= steps; self`. -/
def subtract_steps (v : ScrollViewport) (steps : Int) : ScrollViewport :=
  { v with offset := v.offset - steps }

/-- `impl ops::Add<i64> for Viewport`: `(self.offset + steps).min(self.virtual_max_offset()).max(0)`. -/
def add_offset (v : ScrollViewport) (steps : Int) : Int :=
  max (min (v.offset + steps) (virtual_max_offset v)) 0

/-- `impl ops::Sub<i64> for Viewport`: `self + -steps`. -/
def sub_offset (v : ScrollViewport) (steps : Int) : Int :=
  add_offset v (-steps)

/-- `Viewport::virtual_size_in_pixels`: `(size as f64 * step_size as f64).ceil() as i64`. -/
def virtual_size_in_pixels (v : ScrollViewport) : Int :=
  Int.ceil ((v.size : ℚ) * v.step_size)

/-- `Viewport::viewport_ratio`: `content_viewport_size / virtual_size_in_pixels() as f32`. -/
def viewport_ratio (v : ScrollViewport) : ℚ :=
  v.content_viewport_size / (virtual_size_in_pixels v : ℚ)

/-- `Viewport::is_fully_visible`: `size as f32 * step_size <= content_viewport_size`. -/
def is_fully_visible (v : ScrollViewport) : Prop :=
  (v.size : ℚ) * v.step_size ≤ v.content_viewport_size

/-- `HorizontalScrollbar::layout` thumb sizing:
`(bounds.width * viewport.viewport_ratio()).min(bounds.width).max(10.0)`.
The horizontal track spans the full `bounds.width`, so `bounds_width` is the
track length. -/
def horizontal_thumb_width (bounds_width : ℚ) (v : ScrollViewport) : ℚ :=
  max (min (bounds_width * viewport_ratio v) bounds_width) 10

/-- `VerticalScrollbar::layout` thumb sizing:
`(bounds.height * viewport.viewport_ratio()).min(bounds.height).max(10.0)`. -/
def vertical_thumb_height (bounds_height : ℚ) (v : ScrollViewport) : ℚ :=
  max (min (bounds_height * viewport_ratio v) bounds_height) 10

/-- C3: for every axis viewport with `size >= 0`, the fitted scroll offset lies in
`[0, virtual_max_offset]`, where `virtual_max_offset = max(0, size - floor(content/step))`;
and with the other fields held fixed, `virtual_max_offset` is monotonically
non-decreasing in `size`. -/
theorem fitted_scroll_offset_in_range (v : ScrollViewport) (hsize : 0 ≤ v.size) :
    (0 ≤ fitted_scroll_offset v ∧ fitted_scroll_offset v ≤ virtual_max_offset v)
    ∧ ∀ s₁ s₂ : Int, s₁ ≤ s₂ →
      virtual_max_offset { v with size := s₁ } ≤ virtual_max_offset { v with size := s₂ } := by
  have hfix : ∀ s : Int, viewport_steps_floor { v with size := s } = viewport_steps_floor v := by
    intro s; rfl
  refine ⟨?_, ?_⟩
  · unfold fitted_scroll_offset virtual_max_offset
    generalize viewport_steps_floor v = k
    omega
  · intro s₁ s₂ h
    unfold virtual_max_offset
    rw [hfix s₁, hfix s₂]
    generalize viewport_steps_floor v = k
    simp only
    omega

/-- Witness for C3 at the spec scenario `size=1000, step_size=1.0, content=100`,
`offset=950`: the fitted offset is within `[0, 900]`. -/
theorem fitted_scroll_offset_in_range_witness :
    0 ≤ fitted_scroll_offset ⟨950, 1000, 1, 100⟩
    ∧ fitted_scroll_offset ⟨950, 1000, 1, 100⟩ ≤ virtual_max_offset ⟨950, 1000, 1, 100⟩ :=
  (fitted_scroll_offset_in_range ⟨950, 1000, 1, 100⟩ (by norm_num)).1

/-- C4: `add_steps` does not clamp, contrary to the claim (and to the method's own
doc comment "Adds the number of steps, clamped to valid values"). At the viewport
`{offset: 0, size: 10, step_size: 1.0, content: 5.0}` (whose valid offset range is
`[0, 5]`), `add_steps(-5)` leaves the offset at `-5`. The operator `impl Add` does
clamp; the method `add_steps` does not. -/
theorem add_steps_escapes_clamp_range :
    (add_steps ⟨0, 10, 1, 5⟩ (-5)).offset = -5
    ∧ (add_steps ⟨0, 10, 1, 5⟩ (-5)).offset < 0
    ∧ virtual_max_offset ⟨0, 10, 1, 5⟩ = 5
    ∧ add_offset ⟨0, 10, 1, 5⟩ (-5) = 0 := by
  have hfloor : viewport_steps_floor ⟨0, 10, 1, 5⟩ = 5 := by
    unfold viewport_steps_floor
    norm_num
  refine ⟨rfl, by norm_num [add_steps], ?_, ?_⟩
  · unfold virtual_max_offset
    rw [hfloor]
    decide
  · unfold add_offset virtual_max_offset
    rw [hfloor]
    decide

/-- Clamp arithmetic used to compare the code's thumb sizing (min first, max last)
with the claimed `clamp(x, 10, track)` (max first, min last): the two agree for
tracks of length at least 10, and the code's form always stays within
`[10, track]` on such tracks. -/
theorem max_min_eq_clamp_of_le (x t : ℚ) (ht : 10 ≤ t) :
    max (min x t) 10 = min (max x 10) t
    ∧ 10 ≤ max (min x t) 10 ∧ max (min x t) 10 ≤ t := by
  refine ⟨?_, le_max_right _ _, max_le (min_le_right _ _) ht⟩
  rcases le_total x 10 with h1 | h1 <;> rcases le_total x t with h2 | h2 <;>
    simp [min_def, max_def] <;> split_ifs <;> linarith

/-- C8 counterexample: on a track of width 5 (a valid, non-degenerate bounds
rectangle) with viewport `{offset:0, size:10, step:1, content:5}` (viewport ratio
1/2), the horizontal thumb width computed by `layout` is 10, which exceeds the
track length 5; the claimed `clamp(track * ratio, 10, track)` would give 5. -/
theorem thumb_width_exceeds_short_track :
    horizontal_thumb_width 5 ⟨0, 10, 1, 5⟩ = 10
    ∧ ¬ horizontal_thumb_width 5 ⟨0, 10, 1, 5⟩ ≤ 5
    ∧ min (max ((5 : ℚ) * viewport_ratio ⟨0, 10, 1, 5⟩) 10) 5 = 5 := by
  have hratio : viewport_ratio ⟨0, 10, 1, 5⟩ = 1 / 2 := by
    unfold viewport_ratio virtual_size_in_pixels
    norm_num
  refine ⟨?_, ?_, ?_⟩
  · simp only [horizontal_thumb_width, hratio]
    rw [min_eq_left (by norm_num), max_eq_right (by norm_num)]
  · simp only [horizontal_thumb_width, hratio]
    rw [min_eq_left (by norm_num), max_eq_right (by norm_num)]
    norm_num
  · rw [hratio, max_eq_right (by norm_num), min_eq_right (by norm_num)]

/-- C8 amended: for every scrollbar layout (horizontal or vertical) whose
non-degenerate bounds give a track length of at least 10 pixels, the computed
thumb length equals `clamp(track_length * viewport_ratio, 10, track_length)`:
at least 10 pixels and never more than the track length. (The code computes
`max(min(track * ratio, track), 10)`, so on tracks shorter than 10 pixels the
thumb is 10 pixels and overhangs the track — see the counterexample.) -/
theorem thumb_length_clamped (w h : ℚ) (v : ScrollViewport)
    (hw : 10 ≤ w) (hh : 10 ≤ h) :
    (horizontal_thumb_width w v = min (max (w * viewport_ratio v) 10) w
      ∧ 10 ≤ horizontal_thumb_width w v ∧ horizontal_thumb_width w v ≤ w)
    ∧ (vertical_thumb_height h v = min (max (h * viewport_ratio v) 10) h
      ∧ 10 ≤ vertical_thumb_height h v ∧ vertical_thumb_height h v ≤ h) :=
  ⟨max_min_eq_clamp_of_le (w * viewport_ratio v) w hw,
   max_min_eq_clamp_of_le (h * viewport_ratio v) h hh⟩

/-- Witness for C8 on a 20-pixel track with viewport `{0, 10, 1, 5}`:
the horizontal thumb equals the clamp and lies in `[10, 20]`. -/
theorem thumb_length_clamped_witness :
    horizontal_thumb_width 20 ⟨0, 10, 1, 5⟩
        = min (max ((20 : ℚ) * viewport_ratio ⟨0, 10, 1, 5⟩) 10) 20
    ∧ 10 ≤ horizontal_thumb_width 20 ⟨0, 10, 1, 5⟩
    ∧ horizontal_thumb_width 20 ⟨0, 10, 1, 5⟩ ≤ 20 :=
  (thumb_length_clamped 20 20 ⟨0, 10, 1, 5⟩ (by norm_num) (by norm_num)).1

/-! ### Index, Side and Selection (src/hex/viewer.rs) -/

/-- `enum Side { Left = 0, None = 1, Right = 2 }`. -/
inductive Side where
  | Left : Side
  | None : Side
  | Right : Side
deriving DecidableEq

/-- The discriminant of `Side`, which drives its derived `PartialOrd`
(`Left < None < Right`). -/
def Side.rank : Side → Nat
  | .Left => 0
  | .None => 1
  | .Right => 2

/-- `struct Index { offset: i64, side: Side }`. -/
structure Index where
  offset : Int
  side : Side
deriving DecidableEq

/-- `impl PartialOrd for Index`: compare by `offset` first and by `side`
(via its discriminant) when the offsets are equal; `a < b` holds exactly when
`partial_cmp` yields `Less`. -/
def Index.lt (a b : Index) : Prop :=
  a.offset < b.offset ∨ (a.offset = b.offset ∧ Side.rank a.side < Side.rank b.side)

instance (a b : Index) : Decidable (Index.lt a b) := by
  unfold Index.lt
  infer_instance

/-- Rust `as u64` on an `i64` value: wrap modulo `2^64`. -/
def u64ofI64 (n : Int) : Nat :=
  (n % (2 ^ 64)).toNat

/-- Rust `as i64` on a `u64` value: wrap modulo `2^64` into the signed range. -/
def i64ofU64 (n : Nat) : Int :=
  if n < 2 ^ 63 then (n : Int) else (n : Int) - 2 ^ 64

/-- `struct Selection { offset: u64, length: u64, last: u64 }`. -/
structure Selection where
  offset : Nat
  length : Nat
  last : Nat
deriving DecidableEq

/-- `HexViewer::selection`: order the two indices, derive `start` and `length`
from the offsets and half-cell sides, and produce a `Selection` only when
`length > 0`. The `as u64` casts of the source are `u64ofI64`. -/
def selection (a b : Index) (current_cursor : Int) : Option Selection :=
  let left := if Index.lt a b then a else b
  let right := if Index.lt a b then b else a
  let start := left.offset + (if left.side = Side.Right then 1 else 0)
  let length := right.offset - left.offset - 1
    + (if left.side = Side.Left ∨ left.side = Side.None then 1 else 0)
    + (if right.side = Side.Right ∨ right.side = Side.None then 1 else 0)
  if 0 < length then
    some (Selection.mk (u64ofI64 start) (u64ofI64 length) (u64ofI64 current_cursor))
  else
    none

/-- Modelled from the spec's words (section 4.6, "Selection computation contract"),
for comparison with `selection`: order `a`, `b` as `(left, right)`;
`start = left.offset + (left.side==Right ? 1 : 0)`;
`length = right.offset - left.offset - 1 + (left.side in {Left,None} ? 1 : 0)
+ (right.side in {Right,None} ? 1 : 0)`; `None` when `length <= 0`, otherwise
the triple `(start, length, current_interacted)` over unbounded integers. -/
def selection_spec (a b : Index) (current_interacted : Int) : Option (Int × Int × Int) :=
  let left := if Index.lt a b then a else b
  let right := if Index.lt a b then b else a
  let start := left.offset + (if left.side = Side.Right then 1 else 0)
  let length := right.offset - left.offset - 1
    + (if left.side = Side.Left ∨ left.side = Side.None then 1 else 0)
    + (if right.side = Side.Right ∨ right.side = Side.None then 1 else 0)
  if length ≤ 0 then none else some (start, length, current_interacted)

/-- The discriminant determines the side. -/
theorem side_rank_injective : ∀ s t : Side, Side.rank s = Side.rank t → s = t := by
  intro s t h
  cases s <;> cases t <;> simp_all [Side.rank]

/-- The derived order on `Index` is asymmetric. -/
theorem index_lt_asymm (a b : Index) (h : Index.lt a b) : ¬ Index.lt b a := by
  unfold Index.lt at *
  omega

/-- Two indices that compare less-than in neither direction are equal. -/
theorem index_eq_of_not_lt (a b : Index) (h1 : ¬ Index.lt a b) (h2 : ¬ Index.lt b a) :
    a = b := by
  rcases a with ⟨ao, sa⟩
  rcases b with ⟨bo, sb⟩
  unfold Index.lt at h1 h2
  simp only at h1 h2
  have ho : ao = bo := by omega
  have hr : Side.rank sa = Side.rank sb := by omega
  have hs : sa = sb := side_rank_injective sa sb hr
  rw [ho, hs]

/-- C6: the selection computation is symmetric in its two `Index` arguments:
`selection(a, b, x) = selection(b, a, x)` for all index pairs and every
current-interacted offset. -/
theorem selection_symmetric (a b : Index) (x : Int) :
    selection a b x = selection b a x := by
  by_cases h1 : Index.lt a b
  · have h2 : ¬ Index.lt b a := index_lt_asymm a b h1
    simp only [selection, if_pos h1, if_neg h2]
  · by_cases h2 : Index.lt b a
    · simp only [selection, if_neg h1, if_pos h2]
    · rw [index_eq_of_not_lt a b h1 h2]

/-- C1: the selection computed between two indices follows the spec's contract
(`selection_spec`, written from the spec's own formulas over unbounded integers):
whenever the spec produces `(start, length, x)` the code produces the same
`Selection` (through its `u64` fields), whenever the spec yields no selection the
code yields `None`, a produced `Selection` never has `length == 0`, and selecting
from `Index{5, Left}` to `Index{5, Right}` yields `Selection{offset: 5, length: 1}`.
The hypotheses restrict offsets to the representable, non-negative range in which
the source's `as u64` casts are value-preserving. -/
theorem selection_contract (a b : Index) (x : Int)
    (ha0 : 0 ≤ a.offset) (hb0 : 0 ≤ b.offset) (hx0 : 0 ≤ x)
    (ha1 : a.offset < 2 ^ 63) (hb1 : b.offset < 2 ^ 63) (hx1 : x < 2 ^ 63) :
    (∀ st len la, selection_spec a b x = some (st, len, la) →
        selection a b x = some (Selection.mk st.toNat len.toNat la.toNat))
    ∧ (selection_spec a b x = none → selection a b x = none)
    ∧ (∀ s, selection a b x = some s → 0 < s.length)
    ∧ selection (Index.mk 5 Side.Left) (Index.mk 5 Side.Right) x
        = some (Selection.mk 5 1 x.toNat) := by
  refine ⟨?_, ?_, ?_, ?_⟩
  · intro st len la hsp
    simp only [selection_spec] at hsp
    simp only [selection]
    by_cases h : Index.lt a b
    · simp only [if_pos h] at hsp ⊢
      split_ifs at hsp ⊢ <;> simp_all [u64ofI64] <;> omega
    · simp only [if_neg h] at hsp ⊢
      split_ifs at hsp ⊢ <;> simp_all [u64ofI64] <;> omega
  · intro hsp
    simp only [selection_spec] at hsp
    simp only [selection]
    by_cases h : Index.lt a b
    · simp only [if_pos h] at hsp ⊢
      split_ifs at hsp ⊢ <;> simp_all <;> omega
    · simp only [if_neg h] at hsp ⊢
      split_ifs at hsp ⊢ <;> simp_all <;> omega
  · intro s hs
    simp only [selection] at hs
    by_cases h : Index.lt a b
    · simp only [if_pos h] at hs
      split_ifs at hs <;> simp_all [u64ofI64] <;> (rw [← hs]; simp; omega)
    · simp only [if_neg h] at hs
      split_ifs at hs <;> simp_all [u64ofI64] <;> (rw [← hs]; simp; omega)
  · have hlt : Index.lt (Index.mk 5 Side.Left) (Index.mk 5 Side.Right) :=
      Or.inr ⟨rfl, by decide⟩
    simp only [selection, if_pos hlt]
    norm_num
    simp [u64ofI64]
    omega

/-- Witness for C1 at the claim's own scenario: dragging from `Index{5, Left}` to
`Index{5, Right}` with current-interacted offset 5 selects exactly one byte. -/
theorem selection_contract_witness :
    selection (Index.mk 5 Side.Left) (Index.mk 5 Side.Right) 5
      = some (Selection.mk 5 1 (Int.toNat 5)) :=
  (selection_contract (Index.mk 5 Side.Left) (Index.mk 5 Side.Right) 5
    (by norm_num) (by norm_num) (by norm_num)
    (by norm_num) (by norm_num) (by norm_num)).2.2.2

/-! ### Cursor movement (src/hex/viewer.rs, `HexViewer::move_cursor_*`) -/

/-- The slice of `HexViewer` state the cursor-movement methods read:
`self.cursor`, `self.content.source_size` and `self.virtual_columns`. -/
structure HexViewerNav where
  cursor : Int
  source_size : Int
  virtual_columns : Int
deriving DecidableEq

/-- `HexViewer::cursor_can_decrease`: `self.cursor > 0`. -/
def cursor_can_decrease (v : HexViewerNav) : Bool :=
  decide (0 < v.cursor)

/-- `HexViewer::cursor_can_increase`: `self.cursor + 1 < self.content.source_size`. -/
def cursor_can_increase (v : HexViewerNav) : Bool :=
  decide (v.cursor + 1 < v.source_size)

/-- `HexViewer::move_cursor_left`: `cursor_can_decrease().then(|| cursor - 1)`. -/
def move_cursor_left (v : HexViewerNav) : Option Int :=
  if cursor_can_decrease v then some (v.cursor - 1) else none

/-- `HexViewer::move_cursor_right`: `cursor_can_increase().then(|| cursor + 1)`. -/
def move_cursor_right (v : HexViewerNav) : Option Int :=
  if cursor_can_increase v then some (v.cursor + 1) else none

/-- `HexViewer::move_cursor_up`: `(cursor - virtual_columns).max(0)` when legal. -/
def move_cursor_up (v : HexViewerNav) : Option Int :=
  if cursor_can_decrease v then some (max (v.cursor - v.virtual_columns) 0) else none

/-- `HexViewer::move_cursor_down`:
`(cursor + virtual_columns).min(source_size.max(1) - 1)` when legal. -/
def move_cursor_down (v : HexViewerNav) : Option Int :=
  if cursor_can_increase v then
    some (min (v.cursor + v.virtual_columns) (max v.source_size 1 - 1))
  else none

/-- `HexViewer::move_cursor_page_up`:
`(cursor - page_size * virtual_columns).max(0)` when legal. -/
def move_cursor_page_up (v : HexViewerNav) (page_size : Int) : Option Int :=
  if cursor_can_decrease v then
    some (max (v.cursor - page_size * v.virtual_columns) 0)
  else none

/-- `HexViewer::move_cursor_page_down`:
`(cursor + page_size * virtual_columns).min(source_size.max(1) - 1)` when legal. -/
def move_cursor_page_down (v : HexViewerNav) (page_size : Int) : Option Int :=
  if cursor_can_increase v then
    some (min (v.cursor + page_size * v.virtual_columns) (max v.source_size 1 - 1))
  else none

/-- `HexViewer::move_cursor_top`: `cursor_can_decrease().then_some(0)`. -/
def move_cursor_top (v : HexViewerNav) : Option Int :=
  if cursor_can_decrease v then some 0 else none

/-- `HexViewer::move_cursor_bottom`: `(source_size - 1).max(0)` when legal. -/
def move_cursor_bottom (v : HexViewerNav) : Option Int :=
  if cursor_can_increase v then some (max (v.source_size - 1) 0) else none

/-- C5: cursor movement is boundary-aware. For an in-range cursor
(`0 <= cursor < source_size`), at least one virtual column, and a non-negative
page size: each decreasing move (left/up/page-up/home) is legal iff `cursor > 0`
and each increasing move (right/down/page-down/end) is legal iff
`cursor + 1 < source_size`, an illegal move returning `None`; the vertical moves
add/subtract `virtual_columns` times the row/page count clamped into
`[0, source_size - 1]`; and in the claim's scenarios, ArrowLeft at cursor 0
returns `None` while ArrowDown at cursor 50 (source size 100, 16 virtual
columns) yields 66. -/
theorem move_cursor_boundary_contract (v : HexViewerNav) (p : Int)
    (hc : 0 ≤ v.cursor) (hs : v.cursor < v.source_size)
    (hvc : 1 ≤ v.virtual_columns) (hp : 0 ≤ p) :
    (move_cursor_left ⟨0, v.source_size, v.virtual_columns⟩ = none
      ∧ move_cursor_down ⟨50, 100, 16⟩ = some 66)
    ∧ ((move_cursor_left v).isSome ↔ 0 < v.cursor)
    ∧ ((move_cursor_up v).isSome ↔ 0 < v.cursor)
    ∧ ((move_cursor_page_up v p).isSome ↔ 0 < v.cursor)
    ∧ ((move_cursor_top v).isSome ↔ 0 < v.cursor)
    ∧ ((move_cursor_right v).isSome ↔ v.cursor + 1 < v.source_size)
    ∧ ((move_cursor_down v).isSome ↔ v.cursor + 1 < v.source_size)
    ∧ ((move_cursor_page_down v p).isSome ↔ v.cursor + 1 < v.source_size)
    ∧ ((move_cursor_bottom v).isSome ↔ v.cursor + 1 < v.source_size)
    ∧ (move_cursor_up v
        = if 0 < v.cursor then some (max (v.cursor - v.virtual_columns) 0) else none)
    ∧ (move_cursor_down v
        = if v.cursor + 1 < v.source_size then
            some (min (v.cursor + v.virtual_columns) (v.source_size - 1)) else none)
    ∧ (move_cursor_page_up v p
        = if 0 < v.cursor then some (max (v.cursor - p * v.virtual_columns) 0) else none)
    ∧ (move_cursor_page_down v p
        = if v.cursor + 1 < v.source_size then
            some (min (v.cursor + p * v.virtual_columns) (v.source_size - 1)) else none)
    ∧ (∀ r, move_cursor_up v = some r → 0 ≤ r ∧ r ≤ v.source_size - 1)
    ∧ (∀ r, move_cursor_down v = some r → 0 ≤ r ∧ r ≤ v.source_size - 1)
    ∧ (∀ r, move_cursor_page_up v p = some r → 0 ≤ r ∧ r ≤ v.source_size - 1)
    ∧ (∀ r, move_cursor_page_down v p = some r → 0 ≤ r ∧ r ≤ v.source_size - 1) := by
  have hpv : 0 ≤ p * v.virtual_columns := mul_nonneg hp (le_trans zero_le_one hvc)
  refine ⟨⟨?_, by decide⟩, ?_, ?_, ?_, ?_, ?_, ?_, ?_, ?_, ?_, ?_, ?_, ?_, ?_, ?_, ?_, ?_⟩
  · simp [move_cursor_left, cursor_can_decrease]
  · simp only [move_cursor_left, cursor_can_decrease]
    split_ifs <;> simp_all
  · simp only [move_cursor_up, cursor_can_decrease]
    split_ifs <;> simp_all
  · simp only [move_cursor_page_up, cursor_can_decrease]
    split_ifs <;> simp_all
  · simp only [move_cursor_top, cursor_can_decrease]
    split_ifs <;> simp_all
  · simp only [move_cursor_right, cursor_can_increase]
    split_ifs <;> simp_all
  · simp only [move_cursor_down, cursor_can_increase]
    split_ifs <;> simp_all
  · simp only [move_cursor_page_down, cursor_can_increase]
    split_ifs <;> simp_all
  · simp only [move_cursor_bottom, cursor_can_increase]
    split_ifs <;> simp_all
  · simp only [move_cursor_up, cursor_can_decrease]
    split_ifs <;> simp_all
  · simp only [move_cursor_down, cursor_can_increase]
    split_ifs <;> simp_all <;> omega
  · simp only [move_cursor_page_up, cursor_can_decrease]
    split_ifs <;> simp_all
  · simp only [move_cursor_page_down, cursor_can_increase]
    split_ifs <;> simp_all <;> omega
  · intro r hr
    simp only [move_cursor_up, cursor_can_decrease] at hr
    split_ifs at hr
    simp only [Option.some.injEq] at hr
    omega
  · intro r hr
    simp only [move_cursor_down, cursor_can_increase] at hr
    split_ifs at hr
    simp only [Option.some.injEq] at hr
    omega
  · intro r hr
    simp only [move_cursor_page_up, cursor_can_decrease] at hr
    split_ifs at hr
    simp only [Option.some.injEq] at hr
    omega
  · intro r hr
    simp only [move_cursor_page_down, cursor_can_increase] at hr
    split_ifs at hr
    simp only [Option.some.injEq] at hr
    omega

/-- Witness for C5 at the claim's scenarios: cursor 0 ArrowLeft is a no-op and
cursor 50 in a 100-byte source with 16 virtual columns moves down to 66. -/
theorem move_cursor_boundary_contract_witness :
    move_cursor_left ⟨0, 100, 16⟩ = none ∧ move_cursor_down ⟨50, 100, 16⟩ = some 66 :=
  (move_cursor_boundary_contract ⟨50, 100, 16⟩ 2
    (by norm_num) (by norm_num) (by norm_num) (by norm_num)).1

/-! ### Builder `HexViewer::virtual_columns` (src/hex/viewer.rs:133-136) -/

/-- `HexViewer::virtual_columns`: the value stored by
`self.virtual_columns = columns.max(1) as i64`, for a `u64` argument. -/
def virtual_columns_set (columns : Nat) : Int :=
  i64ofU64 (max columns 1)

/-- C9 counterexample: passing `c = 2^63` (a valid `u64`) stores
`-(2^63)` = `i64::MIN`, not `max(c, 1)`, and the stored count is less than 1:
the `as i64` cast wraps. -/
theorem virtual_columns_set_wraps :
    virtual_columns_set (2 ^ 63) = -(2 ^ 63)
    ∧ virtual_columns_set (2 ^ 63) < 1 := by
  have h : virtual_columns_set (2 ^ 63) = -(2 ^ 63) := by
    unfold virtual_columns_set i64ofU64
    norm_num
  exact ⟨h, by rw [h]; norm_num⟩

/-- C9 amended: for every `u64` argument `c` below `2^63` (so the `as i64` cast
is value-preserving), the builder stores `max(c, 1)` as the virtual column
count, which is at least 1 even when 0 is passed; for `c >= 2^63` the cast
wraps to a negative count (see the counterexample). -/
theorem virtual_columns_set_at_least_one (c : Nat) (h : c < 2 ^ 63) :
    virtual_columns_set c = max (c : Int) 1 ∧ 1 ≤ virtual_columns_set c := by
  have hlt : max c 1 < 2 ^ 63 := by omega
  unfold virtual_columns_set i64ofU64
  rw [if_pos hlt]
  constructor <;> [push_cast; skip] <;> omega

/-- Witness for C9 at `c = 0`: the stored virtual column count is 1. -/
theorem virtual_columns_set_at_least_one_witness :
    virtual_columns_set 0 = max ((0 : Nat) : Int) 1 ∧ 1 ≤ virtual_columns_set 0 :=
  virtual_columns_set_at_least_one 0 (by norm_num)

/-! ### ContentStyler (src/hex/viewer.rs, sparse per-cell style overrides) -/

/-- `iced_core::Color`, as consumed by the styler: four `f32` components,
modelled over `ℚ`. -/
structure Color where
  r : ℚ
  g : ℚ
  b : ℚ
  a : ℚ
deriving DecidableEq

/-- `struct CellStyle { text: Option<Color>, background: Option<Color>,
border: Option<CellBorder> }`; `CellBorder` is an unused placeholder, modelled
opaquely. `Default` gives all-`None`. -/
structure CellStyle where
  text : Option Color := none
  background : Option Color := none
  border : Option Unit := none
deriving DecidableEq

/-- `struct ContentStyler { styles: Vec<CellStyle>, is_clear: bool }`. -/
structure ContentStyler where
  styles : List CellStyle
  is_clear : Bool
deriving DecidableEq

namespace ContentStyler

/-- `ContentStyler::new`: `vec![Default::default(); size]`, `is_clear: true`. -/
def new (size : Nat) : ContentStyler :=
  { styles := List.replicate size {}, is_clear := true }

/-- `ContentStyler::set_text`: `if index < len { styles[index].text = Some(color) }`,
then `is_clear = false` unconditionally. -/
def set_text (cs : ContentStyler) (index : Nat) (color : Color) : ContentStyler :=
  { styles :=
      if index < cs.styles.length then
        cs.styles.set index { cs.styles.getD index {} with text := some color }
      else cs.styles,
    is_clear := false }

/-- `ContentStyler::set_background`: same shape as `set_text` for the
`background` field. -/
def set_background (cs : ContentStyler) (index : Nat) (background : Color) : ContentStyler :=
  { styles :=
      if index < cs.styles.length then
        cs.styles.set index { cs.styles.getD index {} with background := some background }
      else cs.styles,
    is_clear := false }

/-- `ContentStyler::text_color`: `self.styles.get(index)?.text`. -/
def text_color (cs : ContentStyler) (index : Nat) : Option Color :=
  (cs.styles.get? index).bind (fun s => s.text)

/-- `ContentStyler::background_color`: `self.styles.get(index)?.background`. -/
def background_color (cs : ContentStyler) (index : Nat) : Option Color :=
  (cs.styles.get? index).bind (fun s => s.background)

end ContentStyler

/-- C10: the styler tolerates out-of-range cell indices: for every index at or
past the styler's size, `set_text` and `set_background` leave the style table
unchanged (no panic, no growth), and `text_color`/`background_color` return
`None`. (The `is_clear` flag is still lowered by the setters; the style table
itself is untouched.) -/
theorem content_styler_out_of_range (cs : ContentStyler) (index : Nat) (c : Color)
    (h : cs.styles.length ≤ index) :
    (cs.set_text index c).styles = cs.styles
    ∧ (cs.set_background index c).styles = cs.styles
    ∧ (cs.set_text index c).styles.length = cs.styles.length
    ∧ (cs.set_background index c).styles.length = cs.styles.length
    ∧ cs.text_color index = none
    ∧ cs.background_color index = none := by
  have hif : ¬ index < cs.styles.length := by omega
  have hget : cs.styles[index]? = none := by
    rw [List.getElem?_eq_none_iff]
    exact h
  refine ⟨?_, ?_, ?_, ?_, ?_, ?_⟩
  · simp [ContentStyler.set_text, hif]
  · simp [ContentStyler.set_background, hif]
  · simp [ContentStyler.set_text, hif]
  · simp [ContentStyler.set_background, hif]
  · simp [ContentStyler.text_color, hget]
  · simp [ContentStyler.background_color, hget]

/-- Witness for C10: a styler of size 2 asked about index 5. -/
theorem content_styler_out_of_range_witness :
    ((ContentStyler.new 2).set_text 5 ⟨0, 0, 0, 1⟩).styles = (ContentStyler.new 2).styles
    ∧ ((ContentStyler.new 2).set_background 5 ⟨0, 0, 0, 1⟩).styles = (ContentStyler.new 2).styles
    ∧ ((ContentStyler.new 2).set_text 5 ⟨0, 0, 0, 1⟩).styles.length
        = (ContentStyler.new 2).styles.length
    ∧ ((ContentStyler.new 2).set_background 5 ⟨0, 0, 0, 1⟩).styles.length
        = (ContentStyler.new 2).styles.length
    ∧ (ContentStyler.new 2).text_color 5 = none
    ∧ (ContentStyler.new 2).background_color 5 = none :=
  content_styler_out_of_range (ContentStyler.new 2) 5 ⟨0, 0, 0, 1⟩ (by simp [ContentStyler.new])

/-! ### Content window (src/hex/viewer.rs, `Viewport`, `Content`) -/

/-- `struct Viewport` of the hex viewer: `{x, y, columns, rows: i64,
percentage_x: f32, virtual_columns: i64}`. -/
structure Viewport where
  x : Int
  y : Int
  columns : Int
  rows : Int
  percentage_x : ℚ
  virtual_columns : Int
deriving DecidableEq

/-- `Viewport::size`: `(columns * rows) as usize` (wrapping cast on a 64-bit
target). -/
def Viewport.size (v : Viewport) : Nat :=
  u64ofI64 (v.columns * v.rows)

/-- The `Source` trait, modelled as a pure (stable) source: `sizeFn` is what
`size()` returns and `readFn off len` is the list of bytes a `read(off, buf)`
call writes into the front of a `len`-byte buffer (the returned prefix;
a short read returns fewer than `len` bytes). C7's stable-source assumption
(size and read results unchanged between calls) is expressed by this purity. -/
structure SourceM where
  sizeFn : Nat
  readFn : Nat → Nat → List Nat

/-- The bytes a `read` call actually deposits: never more than the buffer
holds. -/
def readBytes (src : SourceM) (off len : Nat) : List Nat :=
  (src.readFn off len).take len

/-- Write `bs` into `d` starting at index `s`, truncated to `d`'s bounds:
the model of `source.read(_, &mut data[s..e])` depositing its bytes at the
front of the slice. The buffer's length never changes. -/
def writeRange (d : List Nat) (s : Nat) (bs : List Nat) : List Nat :=
  d.take s ++ bs.take (d.length - s) ++ d.drop (s + (bs.take (d.length - s)).length)

/-- `struct Content { source, source_size: i64, data: Vec<u8>, viewport, id }`.
The `id` field (a global monotonic counter used only to deduplicate intent
reporting) is omitted: no claim touches it. -/
structure Content where
  source : SourceM
  source_size : Int
  data : List Nat
  viewport : Viewport

/-- One row of `Content::update`'s fetch loop: `(y + r) * virtual_columns + x`. -/
def row_source_offset (vp : Viewport) (r : Nat) : Int :=
  (vp.y + (r : Int)) * vp.virtual_columns + vp.x

/-- One row of `Content::update`'s fetch loop: `r * columns`. -/
def row_dst_offset (vp : Viewport) (r : Nat) : Int :=
  (r : Int) * vp.columns

/-- One row of `Content::update`'s fetch loop:
`columns.min(source_size - source_offset).max(0)`. -/
def row_dst_size (vp : Viewport) (ss : Int) (r : Nat) : Int :=
  max (min vp.columns (ss - row_source_offset vp r)) 0

/-- The fetch loop of `Content::update` (`for r in 0..viewport.rows`), with the
row index `r` and remaining iteration count `fuel` explicit; it stops early as
soon as a row's `dst_size` is 0, exactly as the source's `break`. Each live row
reads `data[dst_offset as usize .. dst_end as usize]` worth of bytes from the
source at `source_offset as u64` and deposits them in place. -/
def fetchRows (src : SourceM) (ss : Int) (vp : Viewport) : Nat → Nat → List Nat → List Nat
  | _, 0, data => data
  | r, fuel + 1, data =>
    let dst_start := u64ofI64 (row_dst_offset vp r)
    let dst_end := u64ofI64 (row_dst_offset vp r + row_dst_size vp ss r)
    if row_dst_size vp ss r = 0 then data
    else
      fetchRows src ss vp (r + 1) fuel
        (writeRange data dst_start
          (readBytes src (u64ofI64 (row_source_offset vp r)) (dst_end - dst_start)))

/-- `Content::update`: store the viewport; a zero virtual column count degrades
to a no-op; otherwise refresh `source_size` from the source, resize the
materialized buffer to `viewport.size()` when its length differs (`Vec::resize`
keeps the prefix and zero-fills growth), and run the per-row fetch loop. -/
def Content.update (c : Content) (viewport : Viewport) : Content :=
  if viewport.virtual_columns = 0 then
    { c with viewport := viewport }
  else
    let source_size := i64ofU64 c.source.sizeFn
    let data :=
      if c.data.length ≠ Viewport.size viewport then
        c.data.take (Viewport.size viewport)
          ++ List.replicate (Viewport.size viewport - c.data.length) 0
      else c.data
    { c with
        viewport := viewport,
        source_size := source_size,
        data := fetchRows c.source source_size viewport 0 (Int.toNat viewport.rows) data }

/-- `struct ContentItem { offset, viewport_offset, column, row: i64, value: u8 }`. -/
structure ContentItem where
  offset : Int
  viewport_offset : Int
  column : Int
  row : Int
  value : Nat
deriving DecidableEq

/-- `Content::iter`: panics (`Except.error`) when the viewport's virtual column
count is 0; otherwise enumerates the materialized buffer row-major
(`i / columns`, `i % columns` with Rust's truncating `i64` division) and keeps
items while `offset < source_size`. -/
def Content.iter (c : Content) : Except String (List ContentItem) :=
  if c.viewport.virtual_columns = 0 then
    Except.error "Virtual column count not set"
  else
    Except.ok ((c.data.enum.map (fun p =>
      let i : Int := (p.1 : Int)
      let row := Int.tdiv i c.viewport.columns
      let col := Int.tmod i c.viewport.columns
      let offset := (c.viewport.y + row) * c.viewport.virtual_columns + c.viewport.x + col
      ContentItem.mk offset i col row p.2)).takeWhile
        (fun item => decide (item.offset < c.source_size)))

/-- A one-byte stable source for the degenerate-configuration scenario. -/
def oneByteSource : SourceM :=
  ⟨1, fun _ _ => [0]⟩

/-- A viewport whose virtual column count is zero. -/
def zeroColumnsViewport : Viewport :=
  ⟨0, 0, 1, 1, 0, 0⟩

/-- A content window holding one materialized byte, about to be updated with the
degenerate viewport. -/
def zeroColumnsContent : Content :=
  ⟨oneByteSource, 1, [7], zeroColumnsViewport⟩

/-- C2 counterexample: after updating with a viewport whose virtual column count
is 0 (which is a no-op, as claimed), iterating does not yield no items: it
panics (`panic!("Virtual column count not set")`, modelled as `Except.error`). -/
theorem content_iter_panics_on_zero_columns :
    (zeroColumnsContent.update zeroColumnsViewport).iter
        = Except.error "Virtual column count not set"
    ∧ (zeroColumnsContent.update zeroColumnsViewport).iter ≠ Except.ok [] := by
  constructor
  · rfl
  · simp [Content.update, Content.iter, zeroColumnsContent, zeroColumnsViewport]

/-- C2 amended: when the viewport's virtual column count is zero,
`Content::update` stores the viewport but performs no fetch and leaves the
materialized byte buffer unchanged, without panicking; `Content::iter`, however,
panics with "Virtual column count not set" instead of yielding no items. -/
theorem content_update_degenerate (c : Content) (v : Viewport)
    (h : v.virtual_columns = 0) :
    c.update v = { c with viewport := v }
    ∧ (c.update v).data = c.data
    ∧ (c.update v).iter = Except.error "Virtual column count not set" := by
  have h1 : c.update v = { c with viewport := v } := by
    simp [Content.update, h]
  refine ⟨h1, by rw [h1], by rw [h1]; simp [Content.iter, h]⟩

/-- Witness for C2 at the concrete degenerate content. -/
theorem content_update_degenerate_witness :
    zeroColumnsContent.update zeroColumnsViewport
        = { zeroColumnsContent with viewport := zeroColumnsViewport }
    ∧ (zeroColumnsContent.update zeroColumnsViewport).data = zeroColumnsContent.data
    ∧ (zeroColumnsContent.update zeroColumnsViewport).iter
        = Except.error "Virtual column count not set" :=
  content_update_degenerate zeroColumnsContent zeroColumnsViewport rfl

/-- A ranged slice write never changes the buffer's length. -/
theorem writeRange_length (d : List Nat) (s : Nat) (bs : List Nat) :
    (writeRange d s bs).length = d.length := by
  simp [writeRange]
  omega

/-- Pointwise description of a ranged slice write: indices covered by the
deposited bytes read from them, all others read from the original buffer. -/
theorem writeRange_getElem? (d : List Nat) (s : Nat) (bs : List Nat) (i : Nat) :
    (writeRange d s bs)[i]? =
      if s ≤ i ∧ i < s + (bs.take (d.length - s)).length then
        (bs.take (d.length - s))[i - s]?
      else d[i]? := by
  simp only [writeRange, List.getElem?_append, List.getElem?_take, List.getElem?_drop,
    List.length_append, List.length_take, List.length_drop]
  split_ifs <;>
    first
      | rfl
      | omega
      | (rcases le_or_lt s d.length with hsd | hsd
         · congr 1
           omega
         · exact (List.getElem?_eq_none (by omega)).trans
             ((List.getElem?_eq_none (by omega)).symm))

/-- The byte the fetch loop is known to deposit at index `i` of a buffer of
length `len` (later rows take precedence, matching the loop's write order);
`none` where the loop leaves the buffer alone. Depends only on the source, the
viewport, the buffer length and the loop position, never on the buffer's
contents. -/
def fetchPattern (src : SourceM) (ss : Int) (vp : Viewport) (len : Nat) :
    Nat → Nat → Nat → Option Nat
  | _, 0, _ => none
  | r, fuel + 1, i =>
    let dst_start := u64ofI64 (row_dst_offset vp r)
    let dst_end := u64ofI64 (row_dst_offset vp r + row_dst_size vp ss r)
    let bs := (readBytes src (u64ofI64 (row_source_offset vp r)) (dst_end - dst_start)).take
      (len - dst_start)
    if row_dst_size vp ss r = 0 then none
    else
      match fetchPattern src ss vp len (r + 1) fuel i with
      | some v => some v
      | none => if dst_start ≤ i ∧ i < dst_start + bs.length then bs[i - dst_start]? else none

/-- The fetch loop never changes the buffer's length. -/
theorem fetchRows_length (src : SourceM) (ss : Int) (vp : Viewport) :
    ∀ (fuel r : Nat) (d : List Nat), (fetchRows src ss vp r fuel d).length = d.length := by
  intro fuel
  induction fuel with
  | zero => intro r d; rfl
  | succ n ih =>
    intro r d
    rw [fetchRows]
    split
    · rfl
    · rw [ih, writeRange_length]

/-- Pointwise description of the fetch loop: each index holds the byte the
loop deposits there when it deposits one, and the original buffer's byte
otherwise. -/
theorem fetchRows_getElem? (src : SourceM) (ss : Int) (vp : Viewport) :
    ∀ (fuel r : Nat) (d : List Nat) (i : Nat),
      (fetchRows src ss vp r fuel d)[i]? =
        match fetchPattern src ss vp d.length r fuel i with
        | some v => some v
        | none => d[i]? := by
  intro fuel
  induction fuel with
  | zero => intro r d i; rfl
  | succ n ih =>
    intro r d i
    rw [fetchRows, fetchPattern]
    split
    · rfl
    · rw [ih, writeRange_length, writeRange_getElem?]
      rcases hpat : fetchPattern src ss vp d.length (r + 1) n i with _ | v
      · simp only
        split_ifs with hin
        · have hlt : i - u64ofI64 (row_dst_offset vp r)
              < ((readBytes src (u64ofI64 (row_source_offset vp r))
                  (u64ofI64 (row_dst_offset vp r + row_dst_size vp ss r)
                    - u64ofI64 (row_dst_offset vp r))).take
                  (d.length - u64ofI64 (row_dst_offset vp r))).length := by
            omega
          rw [List.getElem?_eq_getElem hlt]
        · rfl
      · simp only

/-- C7: `Content::update` is idempotent. With the stable source built into the
model (size and read results are pure functions), updating twice with the same
viewport leaves every field — in particular the materialized byte buffer —
identical to its state after the first update: the second pass re-deposits
exactly the bytes the first pass deposited and touches nothing else. -/
theorem content_update_idempotent (c : Content) (v : Viewport) :
    (c.update v).update v = c.update v := by
  by_cases h : v.virtual_columns = 0
  · simp [Content.update, h]
  · have h1 : c.update v =
        { c with
            viewport := v,
            source_size := i64ofU64 c.source.sizeFn,
            data := fetchRows c.source (i64ofU64 c.source.sizeFn) v 0 (Int.toNat v.rows)
              (if c.data.length ≠ Viewport.size v then
                c.data.take (Viewport.size v)
                  ++ List.replicate (Viewport.size v - c.data.length) 0
              else c.data) } := by
      rw [Content.update, if_neg h]
    set ss := i64ofU64 c.source.sizeFn with hss
    set d1 := (if c.data.length ≠ Viewport.size v then
        c.data.take (Viewport.size v) ++ List.replicate (Viewport.size v - c.data.length) 0
      else c.data) with hd1
    have hlen1 : d1.length = Viewport.size v := by
      rw [hd1]
      split_ifs with hcond
      · simp
        omega
      · omega
    have hlen2 : (fetchRows c.source ss v 0 (Int.toNat v.rows) d1).length = Viewport.size v := by
      rw [fetchRows_length]
      exact hlen1
    have hdata : fetchRows c.source ss v 0 (Int.toNat v.rows)
        (fetchRows c.source ss v 0 (Int.toNat v.rows) d1)
        = fetchRows c.source ss v 0 (Int.toNat v.rows) d1 := by
      apply List.ext_getElem?
      intro i
      rw [fetchRows_getElem? c.source ss v (Int.toNat v.rows) 0
        (fetchRows c.source ss v 0 (Int.toNat v.rows) d1) i]
      rw [fetchRows_length]
      rw [fetchRows_getElem? c.source ss v (Int.toNat v.rows) 0 d1 i]
      rcases hpat : fetchPattern c.source ss v d1.length 0 (Int.toNat v.rows) i with _ | w <;>
        simp [hpat]
    rw [h1, Content.update, if_neg h]
    simp only [hlen2, hdata]
    simp [hdata, hlen2, hlen1]
